import Mathlib

/-!
Shallow embedding of the `public-terminal-skill` posting pipeline
(`src/postMessage.ts`, `src/config.ts`, `src/contract.ts`).

External effects (environment variables, the signing HTTP API, the chain
RPC transport) are modelled as explicit inputs collected in a `Transport`
record; each posting function returns its result together with the ordered
trace of network calls it performed, so that "makes no network call"
properties are statable.
-/

namespace PT

/- Constants from src/contract.ts -/

def CONTRACT_ADDRESS : String := "0x1C89997a8643A8E380305F0078BB8210e3952e1C"

def CHAIN_ID : Nat := 84532

def PRICE_WEI : Nat := 500000000000000

def PIN_PRICE_WEI : Nat := 5000000000000000

def MAX_MESSAGE_LENGTH : Nat := 120

def MAX_USERNAME_LENGTH : Nat := 64

def DEFAULT_FEED_COUNT : Nat := 15

/-- One parameter of an ABI function or event.  `indexed` is `none` for
function parameters; `components` holds the (name, type) pairs of a tuple
type. -/
structure AbiParam where
  name : String
  type : String
  indexed : Option Bool
  components : List (String × String)
deriving DecidableEq

/-- One entry of the contract ABI from src/contract.ts. -/
inductive AbiEntry where
  | func (name : String) (inputs : List AbiParam) (outputs : List AbiParam)
      (stateMutability : String)
  | event (name : String) (inputs : List AbiParam)
deriving DecidableEq

/-- `PUBLIC_TERMINAL_ABI` from src/contract.ts, entry for entry. -/
def PUBLIC_TERMINAL_ABI : List AbiEntry := [
  .func "mint"
    [⟨"fid", "uint256", none, []⟩, ⟨"username", "string", none, []⟩,
     ⟨"text", "string", none, []⟩, ⟨"signature", "bytes", none, []⟩]
    [] "payable",
  .func "mintSticky"
    [⟨"fid", "uint256", none, []⟩, ⟨"username", "string", none, []⟩,
     ⟨"text", "string", none, []⟩, ⟨"signature", "bytes", none, []⟩]
    [] "payable",
  .func "getRecentMessages"
    [⟨"count", "uint256", none, []⟩]
    [⟨"", "tuple[]", none,
      [("id", "uint256"), ("author", "address"), ("fid", "uint256"),
       ("username", "string"), ("text", "string"), ("timestamp", "uint256"),
       ("usernameColor", "bytes3")]⟩]
    "view",
  .func "getMessageCount" [] [⟨"", "uint256", none, []⟩] "view",
  .event "MessageMinted"
    [⟨"author", "address", some true, []⟩, ⟨"tokenId", "uint256", some true, []⟩,
     ⟨"fid", "uint256", some true, []⟩, ⟨"username", "string", some false, []⟩,
     ⟨"text", "string", some false, []⟩, ⟨"timestamp", "uint256", some false, []⟩,
     ⟨"usernameColor", "bytes3", some false, []⟩],
  .event "StickySet"
    [⟨"tokenId", "uint256", some true, []⟩, ⟨"author", "address", some true, []⟩]
]

/-- The names of the functions an ABI declares. -/
def abiFunctionNames (abi : List AbiEntry) : List String :=
  abi.filterMap fun e =>
    match e with
    | .func n _ _ _ => some n
    | .event _ _ => none

/- src/config.ts -/

/-- The resolved configuration (interface `PublicTerminalConfig` in
src/types.ts).  `apiBaseUrl` and `rpcUrl` are optional there. -/
structure PublicTerminalConfig where
  fid : Nat
  username : String
  privateKey : String
  apiBaseUrl : Option String
  rpcUrl : Option String
deriving DecidableEq

/-- The environment variables read by `loadConfig`; `none` models an unset
variable. -/
structure ProcessEnv where
  PUBLIC_TERMINAL_FID : Option String
  PUBLIC_TERMINAL_USERNAME : Option String
  PUBLIC_TERMINAL_PRIVATE_KEY : Option String
  PUBLIC_TERMINAL_API_URL : Option String
  PUBLIC_TERMINAL_RPC_URL : Option String
deriving DecidableEq

/-- JavaScript falsiness for an optional string: `undefined` and `""` are
falsy (`!fid` in config.ts). -/
def isFalsy : Option String → Bool
  | none => true
  | some s => s = ""

/-- Does the second character list start with the first? -/
def charsStartWith : List Char → List Char → Bool
  | [], _ => true
  | _ :: _, [] => false
  | p :: ps, c :: cs => p = c && charsStartWith ps cs

/-- Does the second character list contain the first as a contiguous run? -/
def charsContain (pat : List Char) : List Char → Bool
  | [] => pat.isEmpty
  | c :: cs => charsStartWith pat (c :: cs) || charsContain pat cs

/-- JavaScript `s.startsWith(pre)`. -/
def strStartsWith (s pre : String) : Bool :=
  charsStartWith pre.toList s.toList

/-- The whitespace class trimmed by JavaScript `String.prototype.trim`
(space, tab, line feed, carriage return, vertical tab, form feed). -/
def isJsWhitespace (c : Char) : Bool :=
  c = ' ' || c = '\t' || c = '\n' || c = '\r' || c = '\x0b' || c = '\x0c'

/-- JavaScript `s.trim()`: strip leading and trailing whitespace. -/
def jsTrim (s : String) : String :=
  String.mk (((s.toList.dropWhile isJsWhitespace).reverse.dropWhile
    isJsWhitespace).reverse)

/-- JavaScript `v || d` for an optional string value `v`. -/
def jsOr (v : Option String) (d : String) : String :=
  match v with
  | some s => if s = "" then d else s
  | none => d

/-- Helper for `jsParseInt10`: consume leading decimal digits, `none` when
no digit was consumed (JavaScript `NaN`). -/
def digitsVal : List Char → Option Nat → Option Nat
  | [], acc => acc
  | c :: cs, acc =>
    if c.isDigit then digitsVal cs (some ((acc.getD 0) * 10 + (c.toNat - 48)))
    else acc

/-- JavaScript `parseInt(s, 10)`: skip leading whitespace, optional sign,
parse the longest digit run; `none` models `NaN`. -/
def jsParseInt10 (s : String) : Option Int :=
  let cs := s.toList.dropWhile fun c => c = ' ' ∨ c = '\t' ∨ c = '\n' ∨ c = '\r'
  match cs with
  | '-' :: rest => (digitsVal rest none).map fun n => -(n : Int)
  | '+' :: rest => (digitsVal rest none).map fun n => (n : Int)
  | _ => (digitsVal cs none).map fun n => (n : Int)

def DEFAULT_API_URL_CONFIG : String := "https://public-terminal.vercel.app"

def DEFAULT_RPC_URL : String := "https://mainnet.base.org"

/-- `loadConfig` from src/config.ts; a thrown `Error` is modelled as
`Except.error` carrying the error's message. -/
def loadConfig (env : ProcessEnv) : Except String PublicTerminalConfig :=
  let fid := env.PUBLIC_TERMINAL_FID
  let username := env.PUBLIC_TERMINAL_USERNAME
  let privateKey := env.PUBLIC_TERMINAL_PRIVATE_KEY
  if isFalsy fid then
    .error "Missing PUBLIC_TERMINAL_FID environment variable. Set your Farcaster FID."
  else if isFalsy username then
    .error "Missing PUBLIC_TERMINAL_USERNAME environment variable. Set your Farcaster username."
  else if isFalsy privateKey then
    .error "Missing PUBLIC_TERMINAL_PRIVATE_KEY environment variable. Set the private key for a wallet verified with your FID."
  else
    let fidStr := fid.getD ""
    let pkStr := privateKey.getD ""
    match jsParseInt10 fidStr with
    | none =>
      .error ("Invalid PUBLIC_TERMINAL_FID: \"" ++ fidStr ++ "\". Must be a positive integer.")
    | some fidNumber =>
      if fidNumber ≤ 0 then
        .error ("Invalid PUBLIC_TERMINAL_FID: \"" ++ fidStr ++ "\". Must be a positive integer.")
      else if ¬ strStartsWith pkStr "0x" then
        .error "Invalid PUBLIC_TERMINAL_PRIVATE_KEY: must start with 0x"
      else
        .ok { fid := fidNumber.toNat, username := username.getD "",
              privateKey := pkStr,
              apiBaseUrl := some (jsOr env.PUBLIC_TERMINAL_API_URL DEFAULT_API_URL_CONFIG),
              rpcUrl := some (jsOr env.PUBLIC_TERMINAL_RPC_URL DEFAULT_RPC_URL) }

/- src/postMessage.ts -/

def DEFAULT_API_URL : String := "https://publicterminal.app"

/-- The JSON body `POST`ed to `/api/sign-mint` by `getSignature`. -/
structure SignMintRequest where
  fid : Nat
  username : String
  text : String
  address : String
deriving DecidableEq

/-- The signing API's HTTP response as consumed by `getSignature`:
`ok` is `response.ok`, `signature` is the success body's field, and
`errorField` is the failure body's `error` field (`none` when absent). -/
structure SignApiResponse where
  ok : Bool
  signature : String
  errorField : Option String
deriving DecidableEq

/-- The decision core of `getSignature`: `Sum.inl` is the `{ error }`
branch (JavaScript `errorData.error || "Failed to get signature from API"`),
`Sum.inr` the `{ signature }` branch. -/
def getSignature (resp : SignApiResponse) : Sum String String :=
  if ¬ resp.ok then
    Sum.inl (jsOr resp.errorField "Failed to get signature from API")
  else
    Sum.inr resp.signature

/-- The argument record of one `walletClient.writeContract` call. -/
structure ContractCall where
  address : String
  functionName : String
  argFid : Nat
  argUsername : String
  argText : String
  argSignature : String
  value : Nat
deriving DecidableEq

/-- One network interaction performed by the pipeline, in order:
the signing-API POST, the transaction broadcast, the receipt await. -/
inductive NetworkCall where
  | signApi (req : SignMintRequest)
  | writeContract (call : ContractCall)
  | waitForReceipt (hash : String)
deriving DecidableEq

/-- What `decodeEventLog` yields on one receipt log entry: a throw
(`failed`), or a decoded event with its name and — when the event carries
one — its `tokenId` argument. -/
inductive DecodeResult where
  | failed
  | decoded (eventName : String) (tokenId : Option Nat)
deriving DecidableEq

/-- A transaction receipt: `status` (`"success"` or `"reverted"`) and the
decode outcome of each log entry, in log order. -/
structure Receipt where
  status : String
  logs : List DecodeResult
deriving DecidableEq

/-- Outcome of `walletClient.writeContract`: the transaction hash, or a
thrown error's message. -/
inductive SubmitResult where
  | ok (hash : String)
  | throws (msg : String)
deriving DecidableEq

/-- Outcome of `publicClient.waitForTransactionReceipt`: a receipt, or a
thrown error's message. -/
inductive AwaitResult where
  | ok (receipt : Receipt)
  | throws (msg : String)
deriving DecidableEq

/-- All external inputs of one posting invocation: the process environment
read by `loadConfig`, the wallet address derived from the private key by
`privateKeyToAccount`, the signing API's response, and the chain
transport's behaviour on broadcast and on receipt await. -/
structure Transport where
  procEnv : ProcessEnv
  walletAddress : String
  signResponse : SignApiResponse
  submitResult : SubmitResult
  awaitResult : AwaitResult
deriving DecidableEq

/-- Result object of `postMessage`/`postPinMessage`
(interface `PostMessageResult` in src/types.ts). -/
structure PostMessageResult where
  success : Bool
  tokenId : Option Nat := none
  txHash : Option String := none
  error : Option String := none
deriving DecidableEq

/-- The `for (const log of receipt.logs)` loop of `postMessage` and
`postPinMessage`: skip entries that throw in `decodeEventLog` or whose
event name is not `MessageMinted` (or whose `tokenId` argument is
undefined); break with the first `MessageMinted` entry's `tokenId`. -/
def extractTokenId : List DecodeResult → Option Nat
  | [] => none
  | .failed :: rest => extractTokenId rest
  | .decoded eventName tokenId :: rest =>
    if eventName = "MessageMinted" then
      match tokenId with
      | some t => some t
      | none => extractTokenId rest
    else
      extractTokenId rest

/-- JavaScript `s.includes(pat)`. -/
def strIncludes (s pat : String) : Bool :=
  charsContain pat.toList s.toList

/-- The catch-block error classification of `postMessage` (substring
matching against known revert reasons; unmatched messages surface raw). -/
def classifyMintError (msg : String) : String :=
  if strIncludes msg "InsufficientPayment" then
    "Insufficient funds. You need 0.0005 ETH to post."
  else if strIncludes msg "MessageTooLong" then
    "Message too long. Max " ++ toString MAX_MESSAGE_LENGTH ++ " characters."
  else if strIncludes msg "InvalidSignature" then
    "Signature verification failed. Ensure your wallet is verified for your FID."
  else
    msg

/-- The catch-block error classification of `postPinMessage` (same
substrings, pin-specific insufficient-funds hint). -/
def classifyPinError (msg : String) : String :=
  if strIncludes msg "InsufficientPayment" then
    "Insufficient funds. Pinned posts cost 0.005 ETH."
  else if strIncludes msg "MessageTooLong" then
    "Message too long. Max " ++ toString MAX_MESSAGE_LENGTH ++ " characters."
  else if strIncludes msg "InvalidSignature" then
    "Signature verification failed. Ensure your wallet is verified for your FID."
  else
    msg

/-- `postMessage` from src/postMessage.ts, returning the result together
with the ordered trace of network calls made. -/
def postMessage (t : Transport) (text : String) :
    PostMessageResult × List NetworkCall :=
  if text = "" then
    ({ success := false, error := some "Text must be a non-empty string" }, [])
  else
    let trimmedText := jsTrim text
    if trimmedText.length = 0 then
      ({ success := false, error := some "Text cannot be empty" }, [])
    else if trimmedText.length > MAX_MESSAGE_LENGTH then
      ({ success := false,
         error := some ("Text too long: " ++ toString trimmedText.length ++
           " characters (max " ++ toString MAX_MESSAGE_LENGTH ++ ")") }, [])
    else
      match loadConfig t.procEnv with
      | .error msg => ({ success := false, error := some msg }, [])
      | .ok config =>
        let walletAddress := t.walletAddress
        let signReq : SignMintRequest :=
          { fid := config.fid, username := config.username,
            text := trimmedText, address := walletAddress }
        match getSignature t.signResponse with
        | Sum.inl e =>
          ({ success := false, error := some e }, [.signApi signReq])
        | Sum.inr signature =>
          let call : ContractCall :=
            { address := CONTRACT_ADDRESS, functionName := "mint",
              argFid := config.fid, argUsername := config.username,
              argText := trimmedText, argSignature := signature,
              value := PRICE_WEI }
          match t.submitResult with
          | .throws m =>
            ({ success := false, error := some (classifyMintError m) },
             [.signApi signReq, .writeContract call])
          | .ok hash =>
            match t.awaitResult with
            | .throws m =>
              ({ success := false, error := some (classifyMintError m) },
               [.signApi signReq, .writeContract call, .waitForReceipt hash])
            | .ok receipt =>
              if receipt.status ≠ "success" then
                ({ success := false, error := some "Transaction reverted",
                   txHash := some hash },
                 [.signApi signReq, .writeContract call, .waitForReceipt hash])
              else
                ({ success := true, tokenId := extractTokenId receipt.logs,
                   txHash := some hash },
                 [.signApi signReq, .writeContract call, .waitForReceipt hash])

/-- `postPinMessage` from src/postMessage.ts: identical flow, but the
`mintPin` entry point, `PIN_PRICE_WEI` attached, and the pin-specific
insufficient-funds hint. -/
def postPinMessage (t : Transport) (text : String) :
    PostMessageResult × List NetworkCall :=
  if text = "" then
    ({ success := false, error := some "Text must be a non-empty string" }, [])
  else
    let trimmedText := jsTrim text
    if trimmedText.length = 0 then
      ({ success := false, error := some "Text cannot be empty" }, [])
    else if trimmedText.length > MAX_MESSAGE_LENGTH then
      ({ success := false,
         error := some ("Text too long: " ++ toString trimmedText.length ++
           " characters (max " ++ toString MAX_MESSAGE_LENGTH ++ ")") }, [])
    else
      match loadConfig t.procEnv with
      | .error msg => ({ success := false, error := some msg }, [])
      | .ok config =>
        let walletAddress := t.walletAddress
        let signReq : SignMintRequest :=
          { fid := config.fid, username := config.username,
            text := trimmedText, address := walletAddress }
        match getSignature t.signResponse with
        | Sum.inl e =>
          ({ success := false, error := some e }, [.signApi signReq])
        | Sum.inr signature =>
          let call : ContractCall :=
            { address := CONTRACT_ADDRESS, functionName := "mintPin",
              argFid := config.fid, argUsername := config.username,
              argText := trimmedText, argSignature := signature,
              value := PIN_PRICE_WEI }
          match t.submitResult with
          | .throws m =>
            ({ success := false, error := some (classifyPinError m) },
             [.signApi signReq, .writeContract call])
          | .ok hash =>
            match t.awaitResult with
            | .throws m =>
              ({ success := false, error := some (classifyPinError m) },
               [.signApi signReq, .writeContract call, .waitForReceipt hash])
            | .ok receipt =>
              if receipt.status ≠ "success" then
                ({ success := false, error := some "Transaction reverted",
                   txHash := some hash },
                 [.signApi signReq, .writeContract call, .waitForReceipt hash])
              else
                ({ success := true, tokenId := extractTokenId receipt.logs,
                   txHash := some hash },
                 [.signApi signReq, .writeContract call, .waitForReceipt hash])

/- Concrete inputs used by witnesses and counterexamples. -/

/-- A fully populated process environment. -/
def demoEnv : ProcessEnv :=
  { PUBLIC_TERMINAL_FID := some "12345",
    PUBLIC_TERMINAL_USERNAME := some "myagent",
    PUBLIC_TERMINAL_PRIVATE_KEY := some "0xabc",
    PUBLIC_TERMINAL_API_URL := none,
    PUBLIC_TERMINAL_RPC_URL := none }

/-- The configuration `loadConfig` resolves from `demoEnv`. -/
def demoConfig : PublicTerminalConfig :=
  { fid := 12345, username := "myagent", privateKey := "0xabc",
    apiBaseUrl := some DEFAULT_API_URL_CONFIG,
    rpcUrl := some DEFAULT_RPC_URL }

/-- A transport on which every stage succeeds; the receipt carries two
unrelated log entries before the first `MessageMinted` entry (tokenId 42)
and one more `MessageMinted` entry after it. -/
def demoTransport : Transport :=
  { procEnv := demoEnv, walletAddress := "0xwallet",
    signResponse := { ok := true, signature := "0xsig", errorField := none },
    submitResult := .ok "0xhash",
    awaitResult := .ok
      { status := "success",
        logs := [.failed, .decoded "StickySet" none,
                 .decoded "MessageMinted" (some 42),
                 .decoded "MessageMinted" (some 7)] } }

/-- Like `demoTransport`, but the success receipt holds no decodable
`MessageMinted` entry. -/
def demoDegraded : Transport :=
  { demoTransport with
    awaitResult := .ok ⟨"success", [.failed, .decoded "StickySet" none]⟩ }

/-- Like `demoTransport`, but the receipt reports reverted status (its log
list still holds a decodable `MessageMinted` entry). -/
def demoReverted : Transport :=
  { demoTransport with
    awaitResult := .ok ⟨"reverted", [.decoded "MessageMinted" (some 42)]⟩ }

/-- Like `demoTransport`, but awaiting the receipt throws a transport
error whose message matches no known revert reason. -/
def demoAwaitTimeout : Transport :=
  { demoTransport with awaitResult := .throws "receipt polling timed out" }

/-- Like `demoTransport`, but awaiting the receipt throws an error whose
message contains the `InsufficientPayment` revert token. -/
def demoAwaitClassified : Transport :=
  { demoTransport with
    awaitResult := .throws "execution reverted: InsufficientPayment" }

/-- Like `demoTransport`, but the signing API answers a non-success HTTP
status with an `error` body field. -/
def demoApiError : Transport :=
  { demoTransport with
    signResponse := { ok := false, signature := "",
                      errorField := some "fid not verified for address" } }

/-- The sign-mint request body both posting paths send for draft `"hi"`
on `demoTransport`. -/
def demoReqHi : SignMintRequest := ⟨12345, "myagent", "hi", "0xwallet"⟩

/-- The `writeContract` call `postMessage` makes for draft `"hi"` on
`demoTransport`. -/
def demoMintCall : ContractCall :=
  ⟨CONTRACT_ADDRESS, "mint", 12345, "myagent", "hi", "0xsig", PRICE_WEI⟩

/-- The `writeContract` call `postPinMessage` makes for draft `"hi"` on
`demoTransport`. -/
def demoPinCall : ContractCall :=
  ⟨CONTRACT_ADDRESS, "mintPin", 12345, "myagent", "hi", "0xsig",
    PIN_PRICE_WEI⟩

/-- Environment with no identity id set. -/
def envNoFid : ProcessEnv := ⟨none, some "u", some "0xkey", none, none⟩

/-- Environment with no display name set. -/
def envNoUser : ProcessEnv := ⟨some "7", none, some "0xkey", none, none⟩

/-- Environment with no signing key set. -/
def envNoKey : ProcessEnv := ⟨some "7", some "u", none, none, none⟩

/-- Environment whose identity id does not parse as an integer. -/
def envBadFid : ProcessEnv := ⟨some "abc", some "u", some "0xkey", none, none⟩

/-- Environment whose signing key lacks the `0x` prefix marker. -/
def envBadKey : ProcessEnv := ⟨some "7", some "u", some "deadbeef", none, none⟩

instance : DecidableEq (Except String PublicTerminalConfig) := fun a b =>
  match a, b with
  | .ok x, .ok y =>
    if h : x = y then isTrue (by rw [h]) else isFalse (by intro hc; cases hc; exact h rfl)
  | .error x, .error y =>
    if h : x = y then isTrue (by rw [h]) else isFalse (by intro hc; cases hc; exact h rfl)
  | .ok _, .error _ => isFalse (by intro hc; cases hc)
  | .error _, .ok _ => isFalse (by intro hc; cases hc)

/-- Does a decoded log entry carry the `MessageMinted` event name? -/
def isMintedName : DecodeResult → Bool
  | .decoded eventName _ => eventName = "MessageMinted"
  | .failed => false

/- Helper lemmas. -/

theorem text_ne_empty {text : String} (h : (jsTrim text).length ≠ 0) :
    text ≠ "" := by
  intro he
  subst he
  exact h rfl

theorem extractTokenId_skip (l : DecodeResult) (rest : List DecodeResult)
    (h : isMintedName l = false) :
    extractTokenId (l :: rest) = extractTokenId rest := by
  cases l with
  | failed => rfl
  | decoded eventName tokenId =>
    simp only [isMintedName, decide_eq_false_iff_not] at h
    simp [extractTokenId, h]

theorem extractTokenId_first (pre suf : List DecodeResult) (tok : Nat)
    (hpre : ∀ l ∈ pre, isMintedName l = false) :
    extractTokenId (pre ++ .decoded "MessageMinted" (some tok) :: suf) =
      some tok := by
  induction pre with
  | nil => simp [extractTokenId]
  | cons l ls ih =>
    rw [List.cons_append, extractTokenId_skip l _ (hpre l (by simp))]
    exact ih fun x hx => hpre x (by simp [hx])

theorem extractTokenId_none (logs : List DecodeResult)
    (h : ∀ l ∈ logs, isMintedName l = false) :
    extractTokenId logs = none := by
  induction logs with
  | nil => rfl
  | cons l ls ih =>
    rw [extractTokenId_skip l ls (h l (by simp))]
    exact ih fun x hx => h x (by simp [hx])

/-- Claim C1: if the receipt reports success, the log scan skips every
entry that does not decode as `MessageMinted` and the outcome's `tokenId`
is the identifier of the first entry that does, for any number of
unrelated entries `pre` before it and any entries `suf` after it; this
holds for both the normal and the pinned posting path. -/
theorem c1_first_mint_event_tokenId
    (t : Transport) (text : String) (config : PublicTerminalConfig)
    (hash : String) (pre suf : List DecodeResult) (tok : Nat)
    (h1 : (jsTrim text).length ≠ 0)
    (h2 : ¬ (jsTrim text).length > MAX_MESSAGE_LENGTH)
    (hcfg : loadConfig t.procEnv = .ok config)
    (hok : t.signResponse.ok = true)
    (hsub : t.submitResult = .ok hash)
    (hrec : t.awaitResult =
      .ok ⟨"success", pre ++ .decoded "MessageMinted" (some tok) :: suf⟩)
    (hpre : ∀ l ∈ pre, isMintedName l = false) :
    (postMessage t text).1 =
      { success := true, tokenId := some tok, txHash := some hash,
        error := none } ∧
    (postPinMessage t text).1 =
      { success := true, tokenId := some tok, txHash := some hash,
        error := none } := by
  have h0 : text ≠ "" := text_ne_empty h1
  constructor <;>
    simp [postMessage, postPinMessage, h0, h1, h2, hcfg, getSignature, hok,
      hsub, hrec, extractTokenId_first pre suf tok hpre]

/-- Witness for C1 at a concrete transport: two unrelated log entries
precede the first `MessageMinted` entry (tokenId 42), one more follows. -/
theorem c1_witness :
    (jsTrim " hi ").length ≠ 0 ∧
    ¬ (jsTrim " hi ").length > MAX_MESSAGE_LENGTH ∧
    loadConfig demoTransport.procEnv = .ok demoConfig ∧
    demoTransport.signResponse.ok = true ∧
    demoTransport.submitResult = .ok "0xhash" ∧
    demoTransport.awaitResult =
      .ok ⟨"success", [.failed, .decoded "StickySet" none] ++
        .decoded "MessageMinted" (some 42) ::
          [.decoded "MessageMinted" (some 7)]⟩ ∧
    (postMessage demoTransport " hi ").1 =
      { success := true, tokenId := some 42, txHash := some "0xhash",
        error := none } ∧
    (postPinMessage demoTransport " hi ").1 =
      { success := true, tokenId := some 42, txHash := some "0xhash",
        error := none } := by
  refine ⟨by decide, by decide, by decide, by decide, by decide, by decide,
    ?_, ?_⟩
  · exact (c1_first_mint_event_tokenId demoTransport " hi " demoConfig
      "0xhash" [.failed, .decoded "StickySet" none]
      [.decoded "MessageMinted" (some 7)] 42 (by decide) (by decide)
      (by decide) (by decide) (by decide) (by decide) (by decide)).1
  · exact (c1_first_mint_event_tokenId demoTransport " hi " demoConfig
      "0xhash" [.failed, .decoded "StickySet" none]
      [.decoded "MessageMinted" (some 7)] 42 (by decide) (by decide)
      (by decide) (by decide) (by decide) (by decide) (by decide)).2

/-- Claim C2: for every input whose trimmed length is 0 or exceeds 120,
both posting functions return a validation failure and make no network
call at all (the call trace is empty), for every transport. -/
theorem c2_invalid_text_no_network
    (t : Transport) (text : String)
    (h : (jsTrim text).length = 0 ∨ (jsTrim text).length > MAX_MESSAGE_LENGTH) :
    (postMessage t text).1.success = false ∧ (postMessage t text).2 = [] ∧
    (postPinMessage t text).1.success = false ∧
    (postPinMessage t text).2 = [] := by
  by_cases h0 : text = ""
  · subst h0
    exact ⟨rfl, rfl, rfl, rfl⟩
  · rcases h with h | h
    · simp [postMessage, postPinMessage, h0, h]
    · have hne : (jsTrim text).length ≠ 0 := by omega
      simp [postMessage, postPinMessage, h0, hne, h]

set_option maxRecDepth 4000 in
/-- Witness for C2 at a 121-character draft. -/
theorem c2_witness :
    ((jsTrim (String.mk (List.replicate 121 'a'))).length = 0 ∨
      (jsTrim (String.mk (List.replicate 121 'a'))).length >
        MAX_MESSAGE_LENGTH) ∧
    (postMessage demoTransport (String.mk (List.replicate 121 'a'))).1.success
      = false ∧
    (postMessage demoTransport (String.mk (List.replicate 121 'a'))).2 = [] ∧
    (postPinMessage demoTransport
      (String.mk (List.replicate 121 'a'))).1.success = false ∧
    (postPinMessage demoTransport (String.mk (List.replicate 121 'a'))).2
      = [] := by
  have h := c2_invalid_text_no_network demoTransport
    (String.mk (List.replicate 121 'a')) (by decide)
  exact ⟨by decide, h.1, h.2.1, h.2.2.1, h.2.2.2⟩

/-- Claim C3: if the receipt reports success and no log entry decodes as
the `MessageMinted` event, both posting functions still return a success
with `tokenId` omitted, never a failure. -/
theorem c3_no_mint_event_degraded_success
    (t : Transport) (text : String) (config : PublicTerminalConfig)
    (hash : String) (logs : List DecodeResult)
    (h1 : (jsTrim text).length ≠ 0)
    (h2 : ¬ (jsTrim text).length > MAX_MESSAGE_LENGTH)
    (hcfg : loadConfig t.procEnv = .ok config)
    (hok : t.signResponse.ok = true)
    (hsub : t.submitResult = .ok hash)
    (hrec : t.awaitResult = .ok ⟨"success", logs⟩)
    (hnone : ∀ l ∈ logs, isMintedName l = false) :
    (postMessage t text).1 =
      { success := true, tokenId := none, txHash := some hash,
        error := none } ∧
    (postPinMessage t text).1 =
      { success := true, tokenId := none, txHash := some hash,
        error := none } := by
  have h0 : text ≠ "" := text_ne_empty h1
  constructor <;>
    simp [postMessage, postPinMessage, h0, h1, h2, hcfg, getSignature, hok,
      hsub, hrec, extractTokenId_none logs hnone]

/-- Witness for C3: a success receipt whose two log entries are a decode
failure and an unrelated event. -/
theorem c3_witness :
    (jsTrim "hi").length ≠ 0 ∧
    loadConfig demoDegraded.procEnv = .ok demoConfig ∧
    demoDegraded.signResponse.ok = true ∧
    demoDegraded.submitResult = .ok "0xhash" ∧
    demoDegraded.awaitResult =
      .ok ⟨"success", [.failed, .decoded "StickySet" none]⟩ ∧
    (postMessage demoDegraded "hi").1 =
      { success := true, tokenId := none, txHash := some "0xhash",
        error := none } ∧
    (postPinMessage demoDegraded "hi").1 =
      { success := true, tokenId := none, txHash := some "0xhash",
        error := none } := by
  have h := c3_no_mint_event_degraded_success demoDegraded "hi" demoConfig
    "0xhash" [.failed, .decoded "StickySet" none] (by decide) (by decide)
    (by decide) (by decide) (by decide) (by decide) (by decide)
  exact ⟨by decide, by decide, by decide, by decide, by decide, h.1, h.2⟩

/-- Claim C4: for every receipt whose status is not `"success"`, both
posting functions return a failure with message `"Transaction reverted"`
carrying the transaction hash; the result is the same for every log list
`logs`, so no event decoding of the receipt's logs is attempted. -/
theorem c4_reverted_no_decoding
    (t : Transport) (text : String) (config : PublicTerminalConfig)
    (hash st : String) (logs : List DecodeResult)
    (h1 : (jsTrim text).length ≠ 0)
    (h2 : ¬ (jsTrim text).length > MAX_MESSAGE_LENGTH)
    (hcfg : loadConfig t.procEnv = .ok config)
    (hok : t.signResponse.ok = true)
    (hsub : t.submitResult = .ok hash)
    (hrec : t.awaitResult = .ok ⟨st, logs⟩)
    (hst : st ≠ "success") :
    (postMessage t text).1 =
      { success := false, tokenId := none, txHash := some hash,
        error := some "Transaction reverted" } ∧
    (postPinMessage t text).1 =
      { success := false, tokenId := none, txHash := some hash,
        error := some "Transaction reverted" } := by
  have h0 : text ≠ "" := text_ne_empty h1
  constructor <;>
    simp [postMessage, postPinMessage, h0, h1, h2, hcfg, getSignature, hok,
      hsub, hrec, hst]

/-- Witness for C4: a reverted receipt that even contains a decodable
`MessageMinted` entry, which is ignored. -/
theorem c4_witness :
    (jsTrim "hi").length ≠ 0 ∧
    loadConfig demoReverted.procEnv = .ok demoConfig ∧
    demoReverted.signResponse.ok = true ∧
    demoReverted.submitResult = .ok "0xhash" ∧
    demoReverted.awaitResult =
      .ok ⟨"reverted", [.decoded "MessageMinted" (some 42)]⟩ ∧
    ("reverted" : String) ≠ "success" ∧
    (postMessage demoReverted "hi").1 =
      { success := false, tokenId := none, txHash := some "0xhash",
        error := some "Transaction reverted" } ∧
    (postPinMessage demoReverted "hi").1 =
      { success := false, tokenId := none, txHash := some "0xhash",
        error := some "Transaction reverted" } := by
  have h := c4_reverted_no_decoding demoReverted "hi" demoConfig "0xhash"
    "reverted" [.decoded "MessageMinted" (some 42)] (by decide) (by decide)
    (by decide) (by decide) (by decide) (by decide) (by decide)
  exact ⟨by decide, by decide, by decide, by decide, by decide, by decide,
    h.1, h.2⟩

theorem postMessage_trace
    (t : Transport) (text : String) (config : PublicTerminalConfig)
    (h1 : (jsTrim text).length ≠ 0)
    (h2 : ¬ (jsTrim text).length > MAX_MESSAGE_LENGTH)
    (hcfg : loadConfig t.procEnv = .ok config)
    (hok : t.signResponse.ok = true) :
    ∃ rest, (postMessage t text).2 =
      .signApi ⟨config.fid, config.username, jsTrim text, t.walletAddress⟩ ::
      .writeContract ⟨CONTRACT_ADDRESS, "mint", config.fid, config.username,
        jsTrim text, t.signResponse.signature, PRICE_WEI⟩ :: rest ∧
      ∀ c ∈ rest, ∃ h, c = .waitForReceipt h := by
  have h0 : text ≠ "" := text_ne_empty h1
  cases hsub : t.submitResult with
  | throws m =>
    refine ⟨[], ?_, by simp⟩
    simp [postMessage, h0, h1, h2, hcfg, getSignature, hok, hsub]
  | ok hash =>
    cases hrec : t.awaitResult with
    | throws m =>
      refine ⟨[.waitForReceipt hash], ?_, ?_⟩
      · simp [postMessage, h0, h1, h2, hcfg, getSignature, hok, hsub, hrec]
      · intro c hc
        simp at hc
        exact ⟨hash, hc⟩
    | ok receipt =>
      refine ⟨[.waitForReceipt hash], ?_, ?_⟩
      · by_cases hst : receipt.status = "success" <;>
          simp [postMessage, h0, h1, h2, hcfg, getSignature, hok, hsub, hrec,
            hst]
      · intro c hc
        simp at hc
        exact ⟨hash, hc⟩

theorem postPinMessage_trace
    (t : Transport) (text : String) (config : PublicTerminalConfig)
    (h1 : (jsTrim text).length ≠ 0)
    (h2 : ¬ (jsTrim text).length > MAX_MESSAGE_LENGTH)
    (hcfg : loadConfig t.procEnv = .ok config)
    (hok : t.signResponse.ok = true) :
    ∃ rest, (postPinMessage t text).2 =
      .signApi ⟨config.fid, config.username, jsTrim text, t.walletAddress⟩ ::
      .writeContract ⟨CONTRACT_ADDRESS, "mintPin", config.fid,
        config.username, jsTrim text, t.signResponse.signature,
        PIN_PRICE_WEI⟩ :: rest ∧
      ∀ c ∈ rest, ∃ h, c = .waitForReceipt h := by
  have h0 : text ≠ "" := text_ne_empty h1
  cases hsub : t.submitResult with
  | throws m =>
    refine ⟨[], ?_, by simp⟩
    simp [postPinMessage, h0, h1, h2, hcfg, getSignature, hok, hsub]
  | ok hash =>
    cases hrec : t.awaitResult with
    | throws m =>
      refine ⟨[.waitForReceipt hash], ?_, ?_⟩
      · simp [postPinMessage, h0, h1, h2, hcfg, getSignature, hok, hsub, hrec]
      · intro c hc
        simp at hc
        exact ⟨hash, hc⟩
    | ok receipt =>
      refine ⟨[.waitForReceipt hash], ?_, ?_⟩
      · by_cases hst : receipt.status = "success" <;>
          simp [postPinMessage, h0, h1, h2, hcfg, getSignature, hok, hsub,
            hrec, hst]
      · intro c hc
        simp at hc
        exact ⟨hash, hc⟩

/-- Claim C5: for every valid draft, a non-success signing-API response
makes both posting paths return a failure carrying the server-supplied
error message when a non-empty one is present (else the generic message),
and the only network call made is the signing-API POST — the transaction
submission step is never invoked. -/
theorem c5_api_failure_never_submits
    (t : Transport) (text : String) (config : PublicTerminalConfig)
    (h1 : (jsTrim text).length ≠ 0)
    (h2 : ¬ (jsTrim text).length > MAX_MESSAGE_LENGTH)
    (hcfg : loadConfig t.procEnv = .ok config)
    (hfail : t.signResponse.ok = false) :
    (postMessage t text).1.success = false ∧
    (postMessage t text).1.error =
      some (jsOr t.signResponse.errorField
        "Failed to get signature from API") ∧
    (∀ m, t.signResponse.errorField = some m → m ≠ "" →
      (postMessage t text).1.error = some m) ∧
    (t.signResponse.errorField = none →
      (postMessage t text).1.error =
        some "Failed to get signature from API") ∧
    (postMessage t text).2 =
      [.signApi ⟨config.fid, config.username, jsTrim text,
        t.walletAddress⟩] ∧
    (postPinMessage t text).1.success = false ∧
    (postPinMessage t text).1.error =
      some (jsOr t.signResponse.errorField
        "Failed to get signature from API") ∧
    (postPinMessage t text).2 =
      [.signApi ⟨config.fid, config.username, jsTrim text,
        t.walletAddress⟩] := by
  have h0 : text ≠ "" := text_ne_empty h1
  have hpm : (postMessage t text).1.error =
      some (jsOr t.signResponse.errorField
        "Failed to get signature from API") := by
    simp [postMessage, h0, h1, h2, hcfg, getSignature, hfail]
  refine ⟨?_, hpm, ?_, ?_, ?_, ?_, ?_, ?_⟩
  · simp [postMessage, h0, h1, h2, hcfg, getSignature, hfail]
  · intro m hm hne
    rw [hpm, hm]
    simp [jsOr, hne]
  · intro hnone
    rw [hpm, hnone]
    rfl
  · simp [postMessage, h0, h1, h2, hcfg, getSignature, hfail]
  · simp [postPinMessage, h0, h1, h2, hcfg, getSignature, hfail]
  · simp [postPinMessage, h0, h1, h2, hcfg, getSignature, hfail]
  · simp [postPinMessage, h0, h1, h2, hcfg, getSignature, hfail]

/-- Witness for C5: the signing API answers with status 403 and body
`error = "fid not verified for address"`. -/
theorem c5_witness :
    (jsTrim "hi").length ≠ 0 ∧
    loadConfig demoApiError.procEnv = .ok demoConfig ∧
    demoApiError.signResponse.ok = false ∧
    (postMessage demoApiError "hi").1.success = false ∧
    (postMessage demoApiError "hi").1.error =
      some "fid not verified for address" ∧
    (postMessage demoApiError "hi").2 =
      [.signApi ⟨12345, "myagent", "hi", "0xwallet"⟩] ∧
    (postPinMessage demoApiError "hi").2 =
      [.signApi ⟨12345, "myagent", "hi", "0xwallet"⟩] := by
  have h := c5_api_failure_never_submits demoApiError "hi" demoConfig
    (by decide) (by decide) (by decide) (by decide)
  exact ⟨by decide, by decide, by decide, h.1,
    h.2.2.1 "fid not verified for address" (by decide) (by decide),
    h.2.2.2.2.1, h.2.2.2.2.2.2.2⟩

/-- Claim C6: for every valid draft, the normal posting path's chain call
attaches exactly `PRICE_WEI` and the pinned path's attaches exactly
`PIN_PRICE_WEI`, which is exactly 10 times the base price, independent of
the draft's content. -/
theorem c6_payment_amounts
    (t : Transport) (text : String) (config : PublicTerminalConfig)
    (h1 : (jsTrim text).length ≠ 0)
    (h2 : ¬ (jsTrim text).length > MAX_MESSAGE_LENGTH)
    (hcfg : loadConfig t.procEnv = .ok config)
    (hok : t.signResponse.ok = true) :
    (∃ call, NetworkCall.writeContract call ∈ (postMessage t text).2) ∧
    (∀ call, NetworkCall.writeContract call ∈ (postMessage t text).2 →
      call.value = PRICE_WEI) ∧
    (∃ call, NetworkCall.writeContract call ∈ (postPinMessage t text).2) ∧
    (∀ call, NetworkCall.writeContract call ∈ (postPinMessage t text).2 →
      call.value = PIN_PRICE_WEI) ∧
    PIN_PRICE_WEI = 10 * PRICE_WEI := by
  obtain ⟨rest, htr, hrest⟩ := postMessage_trace t text config h1 h2 hcfg hok
  obtain ⟨rest2, htr2, hrest2⟩ :=
    postPinMessage_trace t text config h1 h2 hcfg hok
  have hex1 : ∃ call, NetworkCall.writeContract call ∈
      (postMessage t text).2 := by
    rw [htr]
    exact ⟨_, List.mem_cons_of_mem _ (List.mem_cons_self _ _)⟩
  have hex2 : ∃ call, NetworkCall.writeContract call ∈
      (postPinMessage t text).2 := by
    rw [htr2]
    exact ⟨_, List.mem_cons_of_mem _ (List.mem_cons_self _ _)⟩
  refine ⟨hex1, ?_, hex2, ?_, by decide⟩
  · intro call hc
    rw [htr] at hc
    rcases List.mem_cons.mp hc with hc | hc
    · simp at hc
    rcases List.mem_cons.mp hc with hc | hc
    · injection hc with hc
      rw [hc]
    · obtain ⟨hsh, hcw⟩ := hrest _ hc
      simp at hcw
  · intro call hc
    rw [htr2] at hc
    rcases List.mem_cons.mp hc with hc | hc
    · simp at hc
    rcases List.mem_cons.mp hc with hc | hc
    · injection hc with hc
      rw [hc]
    · obtain ⟨hsh, hcw⟩ := hrest2 _ hc
      simp at hcw

/-- Witness for C6 at a concrete transport and draft `" hi "`. -/
theorem c6_witness :
    (jsTrim " hi ").length ≠ 0 ∧
    loadConfig demoTransport.procEnv = .ok demoConfig ∧
    demoTransport.signResponse.ok = true ∧
    (∃ call, NetworkCall.writeContract call ∈
      (postMessage demoTransport " hi ").2) ∧
    (∀ call, NetworkCall.writeContract call ∈
      (postMessage demoTransport " hi ").2 → call.value = PRICE_WEI) ∧
    (∀ call, NetworkCall.writeContract call ∈
      (postPinMessage demoTransport " hi ").2 →
      call.value = PIN_PRICE_WEI) ∧
    PIN_PRICE_WEI = 10 * PRICE_WEI := by
  have h := c6_payment_amounts demoTransport " hi " demoConfig (by decide)
    (by decide) (by decide) (by decide)
  exact ⟨by decide, by decide, by decide, h.1, h.2.1, h.2.2.2.1, h.2.2.2.2⟩

/-- Counterexample to claim C7: on `demoAwaitTimeout` the broadcast
succeeded (hash `"0xhash"` is known) and awaiting the receipt throws, yet
the returned failure's `txHash` field is `none` — the transaction hash is
not included, contrary to the claim; moreover on `demoAwaitClassified` the
raw message is replaced by the classified insufficient-funds hint rather
than surfaced verbatim. -/
theorem c7_counterexample :
    demoAwaitTimeout.submitResult = .ok "0xhash" ∧
    demoAwaitTimeout.awaitResult = .throws "receipt polling timed out" ∧
    (postMessage demoAwaitTimeout "hi").1.success = false ∧
    (postMessage demoAwaitTimeout "hi").1.error =
      some "receipt polling timed out" ∧
    (postMessage demoAwaitTimeout "hi").1.txHash = none ∧
    (postMessage demoAwaitClassified "hi").1.error =
      some "Insufficient funds. You need 0.0005 ETH to post." ∧
    (postMessage demoAwaitClassified "hi").1.txHash = none := by decide

/-- Claim C7 as amended: for every exception thrown while awaiting the
receipt (after a successful broadcast) whose message matches none of the
three known revert substrings, both posting paths return a failure whose
error is the raw underlying message, but the `txHash` field is omitted
(`none`) — the known transaction hash is not surfaced. -/
theorem c7_amended_receipt_error_no_txhash
    (t : Transport) (text : String) (config : PublicTerminalConfig)
    (hash m : String)
    (h1 : (jsTrim text).length ≠ 0)
    (h2 : ¬ (jsTrim text).length > MAX_MESSAGE_LENGTH)
    (hcfg : loadConfig t.procEnv = .ok config)
    (hok : t.signResponse.ok = true)
    (hsub : t.submitResult = .ok hash)
    (hrec : t.awaitResult = .throws m)
    (hm1 : strIncludes m "InsufficientPayment" = false)
    (hm2 : strIncludes m "MessageTooLong" = false)
    (hm3 : strIncludes m "InvalidSignature" = false) :
    (postMessage t text).1 =
      { success := false, tokenId := none, txHash := none,
        error := some m } ∧
    (postPinMessage t text).1 =
      { success := false, tokenId := none, txHash := none,
        error := some m } := by
  have h0 : text ≠ "" := text_ne_empty h1
  constructor <;>
    simp [postMessage, postPinMessage, h0, h1, h2, hcfg, getSignature, hok,
      hsub, hrec, classifyMintError, classifyPinError, hm1, hm2, hm3]

/-- Witness for the amended C7 at a concrete receipt-await timeout. -/
theorem c7_amended_witness :
    (jsTrim "hi").length ≠ 0 ∧
    loadConfig demoAwaitTimeout.procEnv = .ok demoConfig ∧
    demoAwaitTimeout.submitResult = .ok "0xhash" ∧
    demoAwaitTimeout.awaitResult = .throws "receipt polling timed out" ∧
    strIncludes "receipt polling timed out" "InsufficientPayment" = false ∧
    (postMessage demoAwaitTimeout "hi").1 =
      { success := false, tokenId := none, txHash := none,
        error := some "receipt polling timed out" } ∧
    (postPinMessage demoAwaitTimeout "hi").1 =
      { success := false, tokenId := none, txHash := none,
        error := some "receipt polling timed out" } := by
  have h := c7_amended_receipt_error_no_txhash demoAwaitTimeout "hi"
    demoConfig "0xhash" "receipt polling timed out" (by decide) (by decide)
    (by decide) (by decide) (by decide) (by decide) (by decide) (by decide)
    (by decide)
  exact ⟨by decide, by decide, by decide, by decide, by decide, h.1, h.2⟩

/-- Claim C8 (code bug): the pinned path does select a chain entry point
(`"mintPin"`) distinct from the normal path's `"mint"` and passes the
identical argument tuple (fid, username, text, signature), but the name it
invokes is NOT declared in the contract ABI the package ships — the ABI
declares `"mintSticky"` instead, so the pinned call cannot be encoded
against the shipped ABI. -/
theorem c8_pin_entrypoint_not_in_abi :
    (postMessage demoTransport "hi").2 =
      [.signApi demoReqHi, .writeContract demoMintCall,
        .waitForReceipt "0xhash"] ∧
    (postPinMessage demoTransport "hi").2 =
      [.signApi demoReqHi, .writeContract demoPinCall,
        .waitForReceipt "0xhash"] ∧
    demoMintCall.functionName = "mint" ∧
    demoPinCall.functionName = "mintPin" ∧
    demoPinCall.functionName ≠ demoMintCall.functionName ∧
    demoPinCall.argFid = demoMintCall.argFid ∧
    demoPinCall.argUsername = demoMintCall.argUsername ∧
    demoPinCall.argText = demoMintCall.argText ∧
    demoPinCall.argSignature = demoMintCall.argSignature ∧
    "mint" ∈ abiFunctionNames PUBLIC_TERMINAL_ABI ∧
    "mintSticky" ∈ abiFunctionNames PUBLIC_TERMINAL_ABI ∧
    "mintPin" ∉ abiFunctionNames PUBLIC_TERMINAL_ABI := by decide

/-- Claim C9: `loadConfig` validates in this exact order — presence of
the identity id, presence of the display name, presence of the signing
key, positive-integer well-formedness of the identity id, `0x`-marker
well-formedness of the signing key — failing on the first violated check
with the error message naming exactly the offending variable, regardless
of the state of the later checks. -/
theorem c9_loadConfig_validation_order (env : ProcessEnv) :
    (isFalsy env.PUBLIC_TERMINAL_FID = true →
      loadConfig env = .error
        "Missing PUBLIC_TERMINAL_FID environment variable. Set your Farcaster FID.") ∧
    (isFalsy env.PUBLIC_TERMINAL_FID = false →
      isFalsy env.PUBLIC_TERMINAL_USERNAME = true →
      loadConfig env = .error
        "Missing PUBLIC_TERMINAL_USERNAME environment variable. Set your Farcaster username.") ∧
    (isFalsy env.PUBLIC_TERMINAL_FID = false →
      isFalsy env.PUBLIC_TERMINAL_USERNAME = false →
      isFalsy env.PUBLIC_TERMINAL_PRIVATE_KEY = true →
      loadConfig env = .error
        "Missing PUBLIC_TERMINAL_PRIVATE_KEY environment variable. Set the private key for a wallet verified with your FID.") ∧
    (isFalsy env.PUBLIC_TERMINAL_FID = false →
      isFalsy env.PUBLIC_TERMINAL_USERNAME = false →
      isFalsy env.PUBLIC_TERMINAL_PRIVATE_KEY = false →
      (jsParseInt10 (env.PUBLIC_TERMINAL_FID.getD "") = none ∨
        (∃ n, jsParseInt10 (env.PUBLIC_TERMINAL_FID.getD "") = some n ∧
          n ≤ 0)) →
      loadConfig env = .error ("Invalid PUBLIC_TERMINAL_FID: \"" ++
        env.PUBLIC_TERMINAL_FID.getD "" ++
        "\". Must be a positive integer.")) ∧
    (isFalsy env.PUBLIC_TERMINAL_FID = false →
      isFalsy env.PUBLIC_TERMINAL_USERNAME = false →
      isFalsy env.PUBLIC_TERMINAL_PRIVATE_KEY = false →
      (∃ n, jsParseInt10 (env.PUBLIC_TERMINAL_FID.getD "") = some n ∧
        0 < n) →
      strStartsWith (env.PUBLIC_TERMINAL_PRIVATE_KEY.getD "") "0x" = false →
      loadConfig env = .error
        "Invalid PUBLIC_TERMINAL_PRIVATE_KEY: must start with 0x") := by
  refine ⟨?_, ?_, ?_, ?_, ?_⟩
  · intro hf
    simp [loadConfig, hf]
  · intro hf hu
    simp [loadConfig, hf, hu]
  · intro hf hu hp
    simp [loadConfig, hf, hu, hp]
  · intro hf hu hp hbad
    rcases hbad with hn | ⟨n, hn, hle⟩
    · simp [loadConfig, hf, hu, hp, hn]
    · simp [loadConfig, hf, hu, hp, hn, hle]
  · intro hf hu hp hgood hpk
    obtain ⟨n, hn, hpos⟩ := hgood
    have hnle : ¬ n ≤ 0 := by omega
    simp [loadConfig, hf, hu, hp, hn, hnle, hpk]

/-- Witness for C9 at five concrete environments, one per check. -/
theorem c9_witness :
    loadConfig envNoFid = .error
      "Missing PUBLIC_TERMINAL_FID environment variable. Set your Farcaster FID." ∧
    loadConfig envNoUser = .error
      "Missing PUBLIC_TERMINAL_USERNAME environment variable. Set your Farcaster username." ∧
    loadConfig envNoKey = .error
      "Missing PUBLIC_TERMINAL_PRIVATE_KEY environment variable. Set the private key for a wallet verified with your FID." ∧
    loadConfig envBadFid = .error
      "Invalid PUBLIC_TERMINAL_FID: \"abc\". Must be a positive integer." ∧
    loadConfig envBadKey = .error
      "Invalid PUBLIC_TERMINAL_PRIVATE_KEY: must start with 0x" := by
  refine ⟨(c9_loadConfig_validation_order envNoFid).1 (by decide),
    (c9_loadConfig_validation_order envNoUser).2.1 (by decide) (by decide),
    (c9_loadConfig_validation_order envNoKey).2.2.1 (by decide) (by decide)
      (by decide),
    ?_, ?_⟩
  · have h := (c9_loadConfig_validation_order envBadFid).2.2.2.1 (by decide)
      (by decide) (by decide) (Or.inl (by decide))
    exact h
  · have h := (c9_loadConfig_validation_order envBadKey).2.2.2.2 (by decide)
      (by decide) (by decide) ⟨7, by decide, by decide⟩ (by decide)
    exact h

/-- Claim C10: for every valid draft, the text carried by the signing-API
request body and the text argument of the chain call are both the trimmed
text, not the original input. -/
theorem c10_trimmed_text_reaches_network
    (t : Transport) (text : String) (config : PublicTerminalConfig)
    (h1 : (jsTrim text).length ≠ 0)
    (h2 : ¬ (jsTrim text).length > MAX_MESSAGE_LENGTH)
    (hcfg : loadConfig t.procEnv = .ok config)
    (hok : t.signResponse.ok = true) :
    (∃ req, NetworkCall.signApi req ∈ (postMessage t text).2 ∧
      req.text = jsTrim text) ∧
    (∀ req, NetworkCall.signApi req ∈ (postMessage t text).2 →
      req.text = jsTrim text) ∧
    (∃ call, NetworkCall.writeContract call ∈ (postMessage t text).2 ∧
      call.argText = jsTrim text) ∧
    (∀ call, NetworkCall.writeContract call ∈ (postMessage t text).2 →
      call.argText = jsTrim text) := by
  obtain ⟨rest, htr, hrest⟩ := postMessage_trace t text config h1 h2 hcfg hok
  refine ⟨?_, ?_, ?_, ?_⟩
  · refine ⟨⟨config.fid, config.username, jsTrim text, t.walletAddress⟩,
      ?_, rfl⟩
    rw [htr]
    exact List.mem_cons_self _ _
  · intro req hc
    rw [htr] at hc
    rcases List.mem_cons.mp hc with hc | hc
    · injection hc with hc
      rw [hc]
    rcases List.mem_cons.mp hc with hc | hc
    · simp at hc
    · obtain ⟨hsh, hcw⟩ := hrest _ hc
      simp at hcw
  · refine ⟨⟨CONTRACT_ADDRESS, "mint", config.fid, config.username,
      jsTrim text, t.signResponse.signature, PRICE_WEI⟩, ?_, rfl⟩
    rw [htr]
    exact List.mem_cons_of_mem _ (List.mem_cons_self _ _)
  · intro call hc
    rw [htr] at hc
    rcases List.mem_cons.mp hc with hc | hc
    · simp at hc
    rcases List.mem_cons.mp hc with hc | hc
    · injection hc with hc
      rw [hc]
    · obtain ⟨hsh, hcw⟩ := hrest _ hc
      simp at hcw

/-- Witness for C10: the draft `" hi "` reaches both network calls as
`"hi"`. -/
theorem c10_witness :
    (jsTrim " hi ").length ≠ 0 ∧
    loadConfig demoTransport.procEnv = .ok demoConfig ∧
    demoTransport.signResponse.ok = true ∧
    (∀ req, NetworkCall.signApi req ∈ (postMessage demoTransport " hi ").2 →
      req.text = jsTrim " hi ") ∧
    (∀ call, NetworkCall.writeContract call ∈
      (postMessage demoTransport " hi ").2 →
      call.argText = jsTrim " hi ") ∧
    jsTrim " hi " = "hi" := by
  have h := c10_trimmed_text_reaches_network demoTransport " hi " demoConfig
    (by decide) (by decide) (by decide) (by decide)
  exact ⟨by decide, by decide, by decide, h.2.1, h.2.2.2, by decide⟩

end PT
